import Mathlib

/-!
Verification development for the Tts backend (src/backend/server.js).

The definitions below are a shallow embedding of the first document of
src/backend/server.js: bytes are modelled as Nat values (each < 256 by
construction), JS numbers carried in usage counters and request bodies as Int,
the in-memory object maps (database.users, database.ttsProjects) as
association lists keyed by String, and the Africa/Lusaka calendar date used
for the daily reset as an abstract Nat day index.
-/

namespace RoxTts

/-! ### Audio container encoding (server.js lines 40-66, 348-353) -/

/-- Little-endian byte decomposition of a 16-bit write, as performed by
DataView.setUint16 with littleEndian = true (values are taken mod 2^16). -/
def u16le (v : Nat) : List Nat :=
  [v % 256, v / 256 % 256]

/-- Little-endian byte decomposition of a 32-bit write, as performed by
DataView.setUint32 with littleEndian = true (values are taken mod 2^32). -/
def u32le (v : Nat) : List Nat :=
  [v % 256, v / 256 % 256, v / 65536 % 256, v / 16777216 % 256]

/-- Byte values of a string written char-by-char via view.setUint8, as the
writeString helper of createWavHeader does (server.js lines 44-48). -/
def asciiBytes (s : String) : List Nat :=
  s.data.map (fun c => c.toNat)

/-- Overwrite a prefix of buf with the given bytes, keeping the tail of buf
beyond them (a DataView write never extends the buffer). -/
def overwrite : List Nat → List Nat → List Nat
  | [], buf => buf
  | _, [] => []
  | x :: xs, _ :: buf => x :: overwrite xs buf

/-- Overwrite the bytes of buf starting at off with the given bytes, the way
successive DataView writes mutate the 44-byte ArrayBuffer. -/
def writeBytes : List Nat → Nat → List Nat → List Nat
  | buf, 0, bytes => overwrite bytes buf
  | [], _ + 1, _ => []
  | b :: buf, off + 1, bytes => b :: writeBytes buf off bytes

/-- Shallow embedding of createWavHeader (server.js lines 40-66): a 44-byte
buffer initialised to zero, mutated by the exact sequence of writes of the
source, including the setUint32 write of 0x45564157 at offset 12 that the
writeString of fmt-space immediately overwrites (lines 53-54). -/
def createWavHeader (dataSize : Nat) : List Nat :=
  let b0 := List.replicate 44 0
  let b1 := writeBytes b0 0 (asciiBytes "RIFF")
  let b2 := writeBytes b1 4 (u32le (36 + dataSize))
  let b3 := writeBytes b2 8 (asciiBytes "WAVE")
  let b4 := writeBytes b3 12 (u32le 0x45564157)
  let b5 := writeBytes b4 12 (asciiBytes "fmt ")
  let b6 := writeBytes b5 16 (u32le 16)
  let b7 := writeBytes b6 20 (u16le 1)
  let b8 := writeBytes b7 22 (u16le 1)
  let b9 := writeBytes b8 24 (u32le 24000)
  let b10 := writeBytes b9 28 (u32le 48000)
  let b11 := writeBytes b10 32 (u16le 2)
  let b12 := writeBytes b11 34 (u16le 16)
  let b13 := writeBytes b12 36 (asciiBytes "data")
  let b14 := writeBytes b13 40 (u32le dataSize)
  b14

/-- Container construction of the generate-tts handler (server.js lines
348-351): wavFile = header for binaryAudio.length, followed by the raw PCM
payload. -/
def encode (pcm : List Nat) : List Nat :=
  createWavHeader pcm.length ++ pcm

/-- Dropping the fixed 44-byte header recovers the payload bytes. -/
def decode (container : List Nat) : List Nat :=
  container.drop 44

/-- Value of a little-endian byte list (least significant byte first). -/
def leVal : List Nat → Nat
  | [] => 0
  | b :: rest => b + 256 * leVal rest

/-- Little-endian value of the 4 bytes of bs at offset off. -/
def field32 (bs : List Nat) (off : Nat) : Nat :=
  leVal ((bs.drop off).take 4)

/-- Little-endian value of the 2 bytes of bs at offset off. -/
def field16 (bs : List Nat) (off : Nat) : Nat :=
  leVal ((bs.drop off).take 2)

/-- Normal form of the 44 header bytes produced by createWavHeader. -/
def wavLit (n : Nat) : List Nat :=
  [82, 73, 70, 70,
   (36 + n) % 256, (36 + n) / 256 % 256, (36 + n) / 65536 % 256,
   (36 + n) / 16777216 % 256,
   87, 65, 86, 69,
   102, 109, 116, 32,
   16, 0, 0, 0,
   1, 0,
   1, 0,
   192, 93, 0, 0,
   128, 187, 0, 0,
   2, 0,
   16, 0,
   100, 97, 116, 97,
   n % 256, n / 256 % 256, n / 65536 % 256, n / 16777216 % 256]

set_option maxHeartbeats 4000000 in
theorem createWavHeader_eq (n : Nat) : createWavHeader n = wavLit n := rfl

theorem encode_eq (pcm : List Nat) : encode pcm = wavLit pcm.length ++ pcm := by
  rw [encode, createWavHeader_eq]

theorem u32_recompose (v : Nat) (h : v < 4294967296) :
    v % 256 + 256 * (v / 256 % 256 + 256 * (v / 65536 % 256 +
      256 * (v / 16777216 % 256 + 256 * 0))) = v := by
  omega

theorem encode_length (pcm : List Nat) : (encode pcm).length = 44 + pcm.length := by
  rw [encode_eq, List.length_append]
  simp [wavLit]

theorem encode_size_field (pcm : List Nat) (h : 36 + pcm.length < 4294967296) :
    field32 (encode pcm) 4 = 36 + pcm.length := by
  rw [encode_eq]
  have e : field32 (wavLit pcm.length ++ pcm) 4 =
      (36 + pcm.length) % 256 + 256 * ((36 + pcm.length) / 256 % 256 +
        256 * ((36 + pcm.length) / 65536 % 256 +
          256 * ((36 + pcm.length) / 16777216 % 256 + 256 * 0))) := rfl
  exact e.trans (u32_recompose _ h)

theorem encode_datalen_field (pcm : List Nat) (h : pcm.length < 4294967296) :
    field32 (encode pcm) 40 = pcm.length := by
  rw [encode_eq]
  have e : field32 (wavLit pcm.length ++ pcm) 40 =
      pcm.length % 256 + 256 * (pcm.length / 256 % 256 +
        256 * (pcm.length / 65536 % 256 +
          256 * (pcm.length / 16777216 % 256 + 256 * 0))) := rfl
  exact e.trans (u32_recompose _ h)

theorem decode_encode (pcm : List Nat) : decode (encode pcm) = pcm := by
  rw [encode_eq]
  rfl

/-- C2: for every PCM byte sequence of length n, the container encoding
(createWavHeader followed by the payload) is a byte sequence of total length
44 + n whose first 44 bytes hold, at exact offsets and little-endian:
RIFF at 0, 36 + n at 4, WAVE at 8, the fmt tag at 12, 16 at 16, PCM encoding
type 1 at 20, channel count 1 at 22, sample rate 24000 at 24, byte rate 48000
at 28, block align 2 at 32, bits-per-sample 16 at 34, the data tag at 36 and
n at 40. The encoder is a pure Lean function, hence deterministic. -/
theorem wav_header_layout (pcm : List Nat) (h : 36 + pcm.length < 4294967296) :
    (encode pcm).length = 44 + pcm.length ∧
    (encode pcm).take 4 = asciiBytes "RIFF" ∧
    field32 (encode pcm) 4 = 36 + pcm.length ∧
    ((encode pcm).drop 8).take 4 = asciiBytes "WAVE" ∧
    ((encode pcm).drop 12).take 4 = asciiBytes "fmt " ∧
    ((encode pcm).drop 16).take 4 = u32le 16 ∧
    ((encode pcm).drop 20).take 2 = u16le 1 ∧
    ((encode pcm).drop 22).take 2 = u16le 1 ∧
    ((encode pcm).drop 24).take 4 = u32le 24000 ∧
    ((encode pcm).drop 28).take 4 = u32le 48000 ∧
    ((encode pcm).drop 32).take 2 = u16le 2 ∧
    ((encode pcm).drop 34).take 2 = u16le 16 ∧
    ((encode pcm).drop 36).take 4 = asciiBytes "data" ∧
    field32 (encode pcm) 40 = pcm.length :=
  ⟨encode_length pcm,
   by rw [encode_eq]; rfl,
   encode_size_field pcm h,
   by rw [encode_eq]; rfl,
   by rw [encode_eq]; rfl,
   by rw [encode_eq]; rfl,
   by rw [encode_eq]; rfl,
   by rw [encode_eq]; rfl,
   by rw [encode_eq]; rfl,
   by rw [encode_eq]; rfl,
   by rw [encode_eq]; rfl,
   by rw [encode_eq]; rfl,
   by rw [encode_eq]; rfl,
   encode_datalen_field pcm (by omega)⟩

/-- Witness for C2 at the concrete payload [9, 8, 7]. -/
theorem wav_header_layout_witness :
    36 + ([9, 8, 7] : List Nat).length < 4294967296 ∧
    ((encode [9, 8, 7]).length = 44 + ([9, 8, 7] : List Nat).length ∧
     (encode [9, 8, 7]).take 4 = asciiBytes "RIFF" ∧
     field32 (encode [9, 8, 7]) 4 = 36 + ([9, 8, 7] : List Nat).length ∧
     ((encode [9, 8, 7]).drop 8).take 4 = asciiBytes "WAVE" ∧
     ((encode [9, 8, 7]).drop 12).take 4 = asciiBytes "fmt " ∧
     ((encode [9, 8, 7]).drop 16).take 4 = u32le 16 ∧
     ((encode [9, 8, 7]).drop 20).take 2 = u16le 1 ∧
     ((encode [9, 8, 7]).drop 22).take 2 = u16le 1 ∧
     ((encode [9, 8, 7]).drop 24).take 4 = u32le 24000 ∧
     ((encode [9, 8, 7]).drop 28).take 4 = u32le 48000 ∧
     ((encode [9, 8, 7]).drop 32).take 2 = u16le 2 ∧
     ((encode [9, 8, 7]).drop 34).take 2 = u16le 16 ∧
     ((encode [9, 8, 7]).drop 36).take 4 = asciiBytes "data" ∧
     field32 (encode [9, 8, 7]) 40 = ([9, 8, 7] : List Nat).length) :=
  ⟨by decide, wav_header_layout [9, 8, 7] (by decide)⟩

/-- C3: for every (also empty) PCM byte sequence, dropping the first 44 bytes
of the encoded container recovers the payload exactly, the encoded length is
44 + len(pcm), and the header size field at offset 4 decodes to
36 + len(pcm). -/
theorem wav_roundtrip (pcm : List Nat) (h : 36 + pcm.length < 4294967296) :
    decode (encode pcm) = pcm ∧
    (encode pcm).length = 44 + pcm.length ∧
    field32 (encode pcm) 4 = 36 + pcm.length :=
  ⟨decode_encode pcm, encode_length pcm, encode_size_field pcm h⟩

/-- Witness for C3 at the empty payload. -/
theorem wav_roundtrip_witness :
    36 + ([] : List Nat).length < 4294967296 ∧
    (decode (encode []) = ([] : List Nat) ∧
     (encode []).length = 44 + ([] : List Nat).length ∧
     field32 (encode []) 4 = 36 + ([] : List Nat).length) :=
  ⟨by decide, wav_roundtrip [] (by decide)⟩

/-! ### Data model (server.js lines 22-25, 69-75, 80-116) -/

/-- Subscription plans of the PLAN_LIMITS table (server.js lines 69-75). -/
inductive Plan where
  | free
  | starter
  | vip
  | vvip
  | exclusive
deriving DecidableEq, Repr

/-- Daily character ceilings per plan (server.js lines 69-75). -/
def PLAN_LIMITS : Plan → Int
  | .free => 700
  | .starter => 50000
  | .vip => 200000
  | .vvip => 1500000
  | .exclusive => 5000000

/-- In-memory per-user record of database.users (server.js line 23 and lines
85-92). JS numbers are carried as Int; the Africa/Lusaka start-of-day stored
in dailyLimitResetTime is abstracted to the Nat index of that calendar day. -/
structure UserData where
  dailyCharsUsed : Int
  dailyLimitResetDay : Nat
  currentDailyLimit : Int
  subscription : Plan
  history : List String
  charsUsed : Int
deriving DecidableEq, Repr

/-- Entry of database.ttsProjects (server.js lines 357-365): the stored
synthesis artifact. The base64 payload is kept as the container bytes it
encodes. -/
structure Project where
  userId : String
  text : String
  voiceName : String
  createdAt : Nat
  settings : String
  audio : List Nat
deriving DecidableEq, Repr

/-- The two in-memory maps of the mock database (server.js lines 22-25),
as association lists keyed by the JS object keys. -/
structure ServerState where
  users : List (String × UserData)
  ttsProjects : List (String × Project)
deriving DecidableEq, Repr

/-- Key lookup in an association list, as JS property read obj[k]. -/
def getKey {α : Type} (k : String) : List (String × α) → Option α
  | [] => none
  | (k', v) :: rest => if k' = k then some v else getKey k rest

/-- Key assignment in an association list, as JS property write obj[k] = v. -/
def setKey {α : Type} (k : String) (v : α) : List (String × α) → List (String × α)
  | [] => [(k, v)]
  | (k', v') :: rest => if k' = k then (k, v) :: rest else (k', v') :: setKey k v rest

/-- Key removal from an association list, as the JS delete operator. -/
def delKey {α : Type} (k : String) : List (String × α) → List (String × α)
  | [] => []
  | (k', v) :: rest => if k' = k then delKey k rest else (k', v) :: delKey k rest

theorem getKey_setKey_self {α : Type} (k : String) (v : α) (l : List (String × α)) :
    getKey k (setKey k v l) = some v := by
  induction l with
  | nil => simp [getKey, setKey]
  | cons hd tl ih =>
    obtain ⟨k', v'⟩ := hd
    by_cases hk : k' = k
    · simp [getKey, setKey, hk]
    · simp [getKey, setKey, hk, ih]

theorem getKey_delKey_self {α : Type} (k : String) (l : List (String × α)) :
    getKey k (delKey k l) = none := by
  induction l with
  | nil => simp [getKey, delKey]
  | cons hd tl ih =>
    obtain ⟨k', v'⟩ := hd
    by_cases hk : k' = k
    · simp [getKey, delKey, hk, ih]
    · simp [getKey, delKey, hk, ih]

/-! ### getUserData (server.js lines 80-116) -/

/-- Shallow embedding of getUserData (server.js lines 80-116). The current
moment is given by today, the Africa/Lusaka calendar-day index of now; the
comparison of toDateString values at line 106 becomes equality of day
indexes, and setting the reset time to the start of the current day (lines
108-110) becomes storing today. The persistent subscription and chars-used
values fetched from the profile store are passed in, as the endpoint
handlers do. Returns the record the handler continues with, together with
the updated users map. -/
def getUserData (users : List (String × UserData)) (userId : String) (today : Nat)
    (persistentSubscription : Plan) (persistentCharsUsed : Int) :
    UserData × List (String × UserData) :=
  let ud0 :=
    match getKey userId users with
    | some ud => ud
    | none =>
      { dailyCharsUsed := 0
        dailyLimitResetDay := today
        currentDailyLimit := PLAN_LIMITS persistentSubscription
        subscription := persistentSubscription
        history := []
        charsUsed := persistentCharsUsed }
  let ud1 := { ud0 with subscription := persistentSubscription,
                        charsUsed := persistentCharsUsed }
  let ud2 :=
    if today ≠ ud1.dailyLimitResetDay then
      { ud1 with dailyCharsUsed := 0, dailyLimitResetDay := today }
    else ud1
  let ud3 := { ud2 with currentDailyLimit := PLAN_LIMITS ud2.subscription }
  (ud3, setKey userId ud3 users)

/-! ### generate-tts endpoint (server.js lines 283-396) -/

/-- Outcome of the single upstream generateContent call (lines 322-340): a
response carrying inline audio data, a response without audio data (line 338
then throws at line 340), or a call that throws, with a rate-limit error
distinguished from any other error even though the handler treats both
identically in its catch block (lines 392-395). -/
inductive UpstreamOutcome where
  | audio (pcm : List Nat)
  | noAudio
  | rateLimited
  | otherFailure
deriving DecidableEq, Repr

/-- Response of the generate-tts handler: 400 for missing parameters (line
287), 403 for the daily-limit rejection (line 308), 500 from the catch block
(line 394), or the 200 payload carrying the container bytes and the usage
figures of lines 383-390. -/
inductive TtsResult where
  | badRequest
  | quotaExceeded
  | serverError
  | ok (audio : List Nat) (dailyCharsUsed : Int) (currentDailyLimit : Int)
      (charsUsed : Int)
deriving DecidableEq, Repr

/-- Result of one run of the generate-tts handler: the HTTP-level result, the
in-memory state it leaves, how many upstream provider calls it made, and the
chars-used writes it issued to the durable profile store (lines 372-375). -/
structure GenerateTtsOutput where
  result : TtsResult
  state : ServerState
  upstreamCalls : Nat
  persistWrites : List (String × Int)
deriving DecidableEq, Repr

/-- Shallow embedding of the generate-tts handler (server.js lines 283-396).
Parameters mirror the request body (text, voice, settings, userId,
textLength), the current Africa/Lusaka day index, the persistent profile row
read at lines 294-303, the outcome of the upstream call, the generated
project id of line 356 and the creation timestamp. Validation follows line
286: a falsy (empty) text, voice, settings or userId is a bad request;
textLength, modelled as always present, is only checked against undefined in
the source and is otherwise unconstrained. -/
def generateTts (st : ServerState) (text voice settings userId : String)
    (textLength : Int) (today : Nat) (persistentSubscription : Plan)
    (persistentCharsUsed : Int) (upstream : UpstreamOutcome)
    (newProjectId : String) (now : Nat) : GenerateTtsOutput :=
  if text = "" ∨ voice = "" ∨ settings = "" ∨ userId = "" then
    { result := .badRequest, state := st, upstreamCalls := 0, persistWrites := [] }
  else if userId = "preview_user_id" then
    match upstream with
    | .audio pcm =>
      { result := .ok (encode pcm) 0 (PLAN_LIMITS .free) 0
        state := st, upstreamCalls := 1, persistWrites := [] }
    | _ =>
      { result := .serverError, state := st, upstreamCalls := 1, persistWrites := [] }
  else
    let loaded := getUserData st.users userId today persistentSubscription
      persistentCharsUsed
    let ud := loaded.1
    let users' := loaded.2
    if ud.dailyCharsUsed + textLength > ud.currentDailyLimit then
      { result := .quotaExceeded, state := { users := users', ttsProjects := st.ttsProjects }
        upstreamCalls := 0, persistWrites := [] }
    else
      match upstream with
      | .audio pcm =>
        let wav := encode pcm
        let proj : Project :=
          { userId := userId, text := text, voiceName := voice, createdAt := now
            settings := settings, audio := wav }
        let ud' := { ud with history := ud.history ++ [newProjectId]
                             dailyCharsUsed := ud.dailyCharsUsed + textLength
                             charsUsed := ud.charsUsed + textLength }
        { result := .ok wav ud'.dailyCharsUsed ud'.currentDailyLimit ud'.charsUsed
          state := { users := setKey userId ud' users'
                     ttsProjects := setKey newProjectId proj st.ttsProjects }
          upstreamCalls := 1
          persistWrites := [(userId, ud'.charsUsed)] }
      | _ =>
        { result := .serverError
          state := { users := users', ttsProjects := st.ttsProjects }
          upstreamCalls := 1, persistWrites := [] }

/-- The server builds exactly one upstream client, from the single API_KEY
environment variable (server.js lines 28-34); starting with an empty
credential list is a fatal configuration error (process.exit at line 32), and
any further credentials of a configured pool are never consulted. Running
the handler against a pool therefore uses the first credential's outcome. -/
def generateTtsPool (st : ServerState) (text voice settings userId : String)
    (textLength : Int) (today : Nat) (persistentSubscription : Plan)
    (persistentCharsUsed : Int) (pool : List UpstreamOutcome)
    (newProjectId : String) (now : Nat) : Option GenerateTtsOutput :=
  match pool with
  | [] => none
  | firstCredential :: _ =>
    some (generateTts st text voice settings userId textLength today
      persistentSubscription persistentCharsUsed firstCredential newProjectId now)

/-! ### delete-tts endpoint (server.js lines 423-472) -/

/-- Response of the delete-tts handler: 400 for a missing user id (line 428),
the single 404 used for both a missing project and a non-owner caller (line
434), 500 when the profile fetch fails (line 444), or the 200 payload of
lines 467-471. -/
inductive DeleteResult where
  | badRequest
  | notFound
  | dbError
  | ok (dailyCharsUsed : Int) (charsUsed : Int)
deriving DecidableEq, Repr

/-- Result of one run of the delete-tts handler. -/
structure DeleteOutput where
  result : DeleteResult
  state : ServerState
  persistWrites : List (String × Int)
deriving DecidableEq, Repr

/-- Shallow embedding of the delete-tts handler (server.js lines 423-472).
profileRead stands for the supabase profile fetch of lines 438-446: none is a
fetch error answered with 500, and the defaulting of an absent row to the
free plan with zero chars is folded into the value passed by the caller. -/
def deleteTts (st : ServerState) (projectId userId : String) (today : Nat)
    (profileRead : Option (Plan × Int)) : DeleteOutput :=
  if userId = "" then
    { result := .badRequest, state := st, persistWrites := [] }
  else
    match getKey projectId st.ttsProjects with
    | none => { result := .notFound, state := st, persistWrites := [] }
    | some proj =>
      if proj.userId ≠ userId then
        { result := .notFound, state := st, persistWrites := [] }
      else
        match profileRead with
        | none => { result := .dbError, state := st, persistWrites := [] }
        | some (psub, pchars) =>
          let loaded := getUserData st.users userId today psub pchars
          let ud := loaded.1
          let users' := loaded.2
          let textLength : Int := proj.text.length
          let ud' := { ud with history := ud.history.filter (· ≠ projectId)
                               dailyCharsUsed := max 0 (ud.dailyCharsUsed - textLength)
                               charsUsed := max 0 (ud.charsUsed - textLength) }
          { result := .ok ud'.dailyCharsUsed ud'.charsUsed
            state := { users := setKey userId ud' users'
                       ttsProjects := delKey projectId st.ttsProjects }
            persistWrites := [(userId, ud'.charsUsed)] }

/-! ### Claim theorems -/

/-- C1: for every non-preview synthesis request, if the loaded record's
dailyCharsUsed plus the declared character length exceeds the tier's daily
ceiling, the request is answered with the quota-exceeded status, no upstream
provider call is made, no artifact or persistence write happens, and the
stored record is exactly the loaded one, so dailyCharsUsed is unchanged. -/
theorem quota_reject_no_upstream (st : ServerState)
    (text voice settings userId : String) (textLength : Int) (today : Nat)
    (psub : Plan) (pchars : Int) (upstream : UpstreamOutcome)
    (pid : String) (now : Nat)
    (hText : text ≠ "") (hVoice : voice ≠ "") (hSettings : settings ≠ "")
    (hUser : userId ≠ "") (hPrev : userId ≠ "preview_user_id")
    (hQuota : (getUserData st.users userId today psub pchars).1.dailyCharsUsed
        + textLength > (getUserData st.users userId today psub pchars).1.currentDailyLimit) :
    (generateTts st text voice settings userId textLength today psub pchars
        upstream pid now).result = .quotaExceeded ∧
    (generateTts st text voice settings userId textLength today psub pchars
        upstream pid now).upstreamCalls = 0 ∧
    (generateTts st text voice settings userId textLength today psub pchars
        upstream pid now).state.ttsProjects = st.ttsProjects ∧
    (generateTts st text voice settings userId textLength today psub pchars
        upstream pid now).persistWrites = [] ∧
    getKey userId (generateTts st text voice settings userId textLength today
        psub pchars upstream pid now).state.users =
      some (getUserData st.users userId today psub pchars).1 := by
  unfold generateTts
  rw [if_neg (by simp [hText, hVoice, hSettings, hUser]), if_neg hPrev]
  simp only []
  rw [if_pos hQuota]
  refine ⟨rfl, rfl, rfl, rfl, ?_⟩
  simp [getUserData, getKey_setKey_self]

/-- Witness for C1: tier ceiling 700, dailyCharsUsed 650, a request declaring
100 characters is rejected with the quota status, makes no upstream call and
leaves the stored usage at 650. -/
theorem quota_reject_no_upstream_witness :
    ("hello" : String) ≠ "" ∧ ("Zephyr" : String) ≠ "" ∧ ("s" : String) ≠ "" ∧
    ("u1" : String) ≠ "" ∧ ("u1" : String) ≠ "preview_user_id" ∧
    (getUserData [("u1",
        { dailyCharsUsed := 650, dailyLimitResetDay := 5, currentDailyLimit := 700
          subscription := .free, history := [], charsUsed := 650 })] "u1" 5 .free
        650).1.dailyCharsUsed + 100 >
      (getUserData [("u1",
        { dailyCharsUsed := 650, dailyLimitResetDay := 5, currentDailyLimit := 700
          subscription := .free, history := [], charsUsed := 650 })] "u1" 5 .free
        650).1.currentDailyLimit ∧
    (getUserData [("u1",
        { dailyCharsUsed := 650, dailyLimitResetDay := 5, currentDailyLimit := 700
          subscription := .free, history := [], charsUsed := 650 })] "u1" 5 .free
        650).1.dailyCharsUsed = 650 ∧
    ((generateTts ⟨[("u1",
        { dailyCharsUsed := 650, dailyLimitResetDay := 5, currentDailyLimit := 700
          subscription := .free, history := [], charsUsed := 650 })], []⟩ "hello"
        "Zephyr" "s" "u1" 100 5 .free 650 (.audio [1, 2]) "p1" 0).result =
        .quotaExceeded ∧
     (generateTts ⟨[("u1",
        { dailyCharsUsed := 650, dailyLimitResetDay := 5, currentDailyLimit := 700
          subscription := .free, history := [], charsUsed := 650 })], []⟩ "hello"
        "Zephyr" "s" "u1" 100 5 .free 650 (.audio [1, 2]) "p1" 0).upstreamCalls = 0 ∧
     (generateTts ⟨[("u1",
        { dailyCharsUsed := 650, dailyLimitResetDay := 5, currentDailyLimit := 700
          subscription := .free, history := [], charsUsed := 650 })], []⟩ "hello"
        "Zephyr" "s" "u1" 100 5 .free 650 (.audio [1, 2]) "p1" 0).state.ttsProjects =
        ((⟨[("u1",
        { dailyCharsUsed := 650, dailyLimitResetDay := 5, currentDailyLimit := 700
          subscription := .free, history := [], charsUsed := 650 })], []⟩ :
          ServerState)).ttsProjects ∧
     (generateTts ⟨[("u1",
        { dailyCharsUsed := 650, dailyLimitResetDay := 5, currentDailyLimit := 700
          subscription := .free, history := [], charsUsed := 650 })], []⟩ "hello"
        "Zephyr" "s" "u1" 100 5 .free 650 (.audio [1, 2]) "p1" 0).persistWrites = [] ∧
     getKey "u1" (generateTts ⟨[("u1",
        { dailyCharsUsed := 650, dailyLimitResetDay := 5, currentDailyLimit := 700
          subscription := .free, history := [], charsUsed := 650 })], []⟩ "hello"
        "Zephyr" "s" "u1" 100 5 .free 650 (.audio [1, 2]) "p1" 0).state.users =
       some (getUserData [("u1",
        { dailyCharsUsed := 650, dailyLimitResetDay := 5, currentDailyLimit := 700
          subscription := .free, history := [], charsUsed := 650 })] "u1" 5 .free
        650).1) :=
  ⟨by decide, by decide, by decide, by decide, by decide, by decide, by decide,
   quota_reject_no_upstream _ "hello" "Zephyr" "s" "u1" 100 5 .free 650
     (.audio [1, 2]) "p1" 0 (by decide) (by decide) (by decide) (by decide)
     (by decide) (by decide)⟩

/-- C7: loading the usage record again within the same reference-timezone
calendar day never resets dailyCharsUsed; a load on a different calendar day
resets it to 0 and stamps the reset at the current reference day; the updated
record is stored before the handler goes on to any quota evaluation; and an
immediately repeated load on the same day returns the same dailyCharsUsed. -/
theorem rollover_policy (users : List (String × UserData)) (userId : String)
    (today : Nat) (psub : Plan) (pchars : Int) (ud0 : UserData)
    (hMem : getKey userId users = some ud0) :
    (ud0.dailyLimitResetDay = today →
      (getUserData users userId today psub pchars).1.dailyCharsUsed =
        ud0.dailyCharsUsed) ∧
    (ud0.dailyLimitResetDay ≠ today →
      (getUserData users userId today psub pchars).1.dailyCharsUsed = 0 ∧
      (getUserData users userId today psub pchars).1.dailyLimitResetDay = today) ∧
    getKey userId (getUserData users userId today psub pchars).2 =
      some (getUserData users userId today psub pchars).1 ∧
    (getUserData (getUserData users userId today psub pchars).2 userId today psub
        pchars).1.dailyCharsUsed =
      (getUserData users userId today psub pchars).1.dailyCharsUsed := by
  unfold getUserData
  rw [hMem]
  by_cases hDay : today = ud0.dailyLimitResetDay
  · subst hDay
    simp [getKey_setKey_self]
  · have hDay' : ud0.dailyLimitResetDay ≠ today := fun h => hDay h.symm
    refine ⟨fun h => absurd h hDay', fun _ => ⟨?_, ?_⟩, ?_, ?_⟩ <;>
      simp [hDay, getKey_setKey_self]

/-- Witness for C7 on a record whose reset day matches the current day. -/
theorem rollover_policy_witness :
    getKey "u1" [("u1",
      { dailyCharsUsed := 42, dailyLimitResetDay := 7, currentDailyLimit := 700
        subscription := .free, history := [], charsUsed := 42 })] =
      some ({ dailyCharsUsed := 42, dailyLimitResetDay := 7, currentDailyLimit := 700
              subscription := .free, history := [], charsUsed := 42 } : UserData) ∧
    ((({ dailyCharsUsed := 42, dailyLimitResetDay := 7, currentDailyLimit := 700
         subscription := .free, history := [], charsUsed := 42 } :
           UserData).dailyLimitResetDay = 7 →
      (getUserData [("u1",
        { dailyCharsUsed := 42, dailyLimitResetDay := 7, currentDailyLimit := 700
          subscription := .free, history := [], charsUsed := 42 })] "u1" 7 .free
        42).1.dailyCharsUsed =
        ({ dailyCharsUsed := 42, dailyLimitResetDay := 7, currentDailyLimit := 700
           subscription := .free, history := [], charsUsed := 42 } :
             UserData).dailyCharsUsed) ∧
     (({ dailyCharsUsed := 42, dailyLimitResetDay := 7, currentDailyLimit := 700
         subscription := .free, history := [], charsUsed := 42 } :
           UserData).dailyLimitResetDay ≠ 7 →
      (getUserData [("u1",
        { dailyCharsUsed := 42, dailyLimitResetDay := 7, currentDailyLimit := 700
          subscription := .free, history := [], charsUsed := 42 })] "u1" 7 .free
        42).1.dailyCharsUsed = 0 ∧
      (getUserData [("u1",
        { dailyCharsUsed := 42, dailyLimitResetDay := 7, currentDailyLimit := 700
          subscription := .free, history := [], charsUsed := 42 })] "u1" 7 .free
        42).1.dailyLimitResetDay = 7) ∧
     getKey "u1" (getUserData [("u1",
        { dailyCharsUsed := 42, dailyLimitResetDay := 7, currentDailyLimit := 700
          subscription := .free, history := [], charsUsed := 42 })] "u1" 7 .free
        42).2 =
       some (getUserData [("u1",
        { dailyCharsUsed := 42, dailyLimitResetDay := 7, currentDailyLimit := 700
          subscription := .free, history := [], charsUsed := 42 })] "u1" 7 .free
        42).1 ∧
     (getUserData (getUserData [("u1",
        { dailyCharsUsed := 42, dailyLimitResetDay := 7, currentDailyLimit := 700
          subscription := .free, history := [], charsUsed := 42 })] "u1" 7 .free
        42).2 "u1" 7 .free 42).1.dailyCharsUsed =
      (getUserData [("u1",
        { dailyCharsUsed := 42, dailyLimitResetDay := 7, currentDailyLimit := 700
          subscription := .free, history := [], charsUsed := 42 })] "u1" 7 .free
        42).1.dailyCharsUsed) :=
  ⟨by decide,
   rollover_policy _ "u1" 7 .free 42 _ (by decide)⟩

/-- The record returned by getUserData always carries the persistent
chars-used value handed in (server.js line 99). -/
theorem getUserData_charsUsed (users : List (String × UserData)) (u : String)
    (today : Nat) (psub : Plan) (pchars : Int) :
    (getUserData users u today psub pchars).1.charsUsed = pchars := by
  unfold getUserData
  split <;> (dsimp only; split <;> rfl)

/-- The record returned by getUserData is the one stored in the updated
users map. -/
theorem getUserData_stored (users : List (String × UserData)) (u : String)
    (today : Nat) (psub : Plan) (pchars : Int) :
    getKey u (getUserData users u today psub pchars).2 =
      some (getUserData users u today psub pchars).1 :=
  getKey_setKey_self _ _ _

/-- C5: for every non-preview request that passes the quota check, if the
upstream call throws or its response carries no audio payload, the handler
answers with the synthesis failure status and commits nothing: the users map
is exactly what the initial load produced (so the stored dailyCharsUsed is
the loaded value and the lifetime counter equals the persistent value that
was read), no artifact is stored and no persistence write happens. -/
theorem upstream_failure_no_commit (st : ServerState)
    (text voice settings userId : String) (textLength : Int) (today : Nat)
    (psub : Plan) (pchars : Int) (upstream : UpstreamOutcome) (pid : String)
    (now : Nat)
    (hText : text ≠ "") (hVoice : voice ≠ "") (hSettings : settings ≠ "")
    (hUser : userId ≠ "") (hPrev : userId ≠ "preview_user_id")
    (hQuota : ¬ ((getUserData st.users userId today psub pchars).1.dailyCharsUsed
        + textLength > (getUserData st.users userId today psub pchars).1.currentDailyLimit))
    (hFail : ∀ pcm, upstream ≠ .audio pcm) :
    (generateTts st text voice settings userId textLength today psub pchars
        upstream pid now).result = .serverError ∧
    (generateTts st text voice settings userId textLength today psub pchars
        upstream pid now).state.users =
      (getUserData st.users userId today psub pchars).2 ∧
    (generateTts st text voice settings userId textLength today psub pchars
        upstream pid now).state.ttsProjects = st.ttsProjects ∧
    (generateTts st text voice settings userId textLength today psub pchars
        upstream pid now).persistWrites = [] ∧
    (getUserData st.users userId today psub pchars).1.charsUsed = pchars ∧
    getKey userId (generateTts st text voice settings userId textLength today
        psub pchars upstream pid now).state.users =
      some (getUserData st.users userId today psub pchars).1 := by
  unfold generateTts
  rw [if_neg (by simp [hText, hVoice, hSettings, hUser]), if_neg hPrev]
  simp only []
  rw [if_neg hQuota]
  cases upstream with
  | audio pcm => exact absurd rfl (hFail pcm)
  | noAudio =>
    exact ⟨rfl, rfl, rfl, rfl, getUserData_charsUsed _ _ _ _ _,
      getUserData_stored _ _ _ _ _⟩
  | rateLimited =>
    exact ⟨rfl, rfl, rfl, rfl, getUserData_charsUsed _ _ _ _ _,
      getUserData_stored _ _ _ _ _⟩
  | otherFailure =>
    exact ⟨rfl, rfl, rfl, rfl, getUserData_charsUsed _ _ _ _ _,
      getUserData_stored _ _ _ _ _⟩

/-- Witness for C5 with an upstream response that carries no audio data. -/
theorem upstream_failure_no_commit_witness :
    ("hi" : String) ≠ "" ∧ ("Puck" : String) ≠ "" ∧ ("s" : String) ≠ "" ∧
    ("u1" : String) ≠ "" ∧ ("u1" : String) ≠ "preview_user_id" ∧
    ¬ ((getUserData [] "u1" 4 .free 0).1.dailyCharsUsed + 2 >
        (getUserData [] "u1" 4 .free 0).1.currentDailyLimit) ∧
    (∀ pcm, (UpstreamOutcome.noAudio) ≠ .audio pcm) ∧
    ((generateTts ⟨[], []⟩ "hi" "Puck" "s" "u1" 2 4 .free 0 .noAudio "p1"
        0).result = .serverError ∧
     (generateTts ⟨[], []⟩ "hi" "Puck" "s" "u1" 2 4 .free 0 .noAudio "p1"
        0).state.users = (getUserData [] "u1" 4 .free 0).2 ∧
     (generateTts ⟨[], []⟩ "hi" "Puck" "s" "u1" 2 4 .free 0 .noAudio "p1"
        0).state.ttsProjects = ((⟨[], []⟩ : ServerState)).ttsProjects ∧
     (generateTts ⟨[], []⟩ "hi" "Puck" "s" "u1" 2 4 .free 0 .noAudio "p1"
        0).persistWrites = [] ∧
     (getUserData [] "u1" 4 .free 0).1.charsUsed = 0 ∧
     getKey "u1" (generateTts ⟨[], []⟩ "hi" "Puck" "s" "u1" 2 4 .free 0 .noAudio
        "p1" 0).state.users = some (getUserData [] "u1" 4 .free 0).1) :=
  ⟨by decide, by decide, by decide, by decide, by decide, by decide,
   (by intro pcm h; cases h),
   upstream_failure_no_commit _ "hi" "Puck" "s" "u1" 2 4 .free 0 .noAudio "p1" 0
     (by decide) (by decide) (by decide) (by decide) (by decide) (by decide)
     (by intro pcm h; cases h)⟩

/-- C4 counterexample: against a pool of two credentials that both signal
rate-limiting, the handler makes exactly one upstream attempt, not two, and
returns the hard failure; the code binds a single client to the one API_KEY
and never rotates, so the claimed N attempts do not happen for N = 2. -/
theorem rotation_termination_counterexample :
    (generateTtsPool ⟨[], []⟩ "hello" "Zephyr" "s" "u1" 5 3 .free 0
        [.rateLimited, .rateLimited] "p1" 0).map GenerateTtsOutput.upstreamCalls =
      some 1 ∧
    ¬ ((generateTtsPool ⟨[], []⟩ "hello" "Zephyr" "s" "u1" 5 3 .free 0
        [.rateLimited, .rateLimited] "p1" 0).map GenerateTtsOutput.upstreamCalls =
      some 2) ∧
    (generateTtsPool ⟨[], []⟩ "hello" "Zephyr" "s" "u1" 5 3 .free 0
        [.rateLimited, .rateLimited] "p1" 0).map GenerateTtsOutput.result =
      some .serverError := by decide

/-- C4 amended: for every synthesis request that reaches the upstream stage,
against a non-empty configured credential pool in which every credential
signals rate-limiting, the handler makes exactly one upstream attempt, with
the first credential only, and returns a hard failure; it never retries and
never loops forever. -/
theorem single_attempt_hard_failure (st : ServerState)
    (text voice settings userId : String) (textLength : Int) (today : Nat)
    (psub : Plan) (pchars : Int) (pool : List UpstreamOutcome) (pid : String)
    (now : Nat)
    (hText : text ≠ "") (hVoice : voice ≠ "") (hSettings : settings ≠ "")
    (hUser : userId ≠ "") (hPrev : userId ≠ "preview_user_id")
    (hPool : pool ≠ []) (hRate : ∀ o ∈ pool, o = .rateLimited)
    (hQuota : ¬ ((getUserData st.users userId today psub pchars).1.dailyCharsUsed
        + textLength > (getUserData st.users userId today psub pchars).1.currentDailyLimit)) :
    ∃ out, generateTtsPool st text voice settings userId textLength today psub
        pchars pool pid now = some out ∧
      out.upstreamCalls = 1 ∧ out.result = .serverError := by
  cases pool with
  | nil => exact absurd rfl hPool
  | cons firstCredential rest =>
    have hFirst : firstCredential = .rateLimited :=
      hRate firstCredential (List.mem_cons_self _ _)
    subst hFirst
    have hv : ¬ (text = "" ∨ voice = "" ∨ settings = "" ∨ userId = "") := by
      simp [hText, hVoice, hSettings, hUser]
    refine ⟨_, rfl, ?_, ?_⟩ <;>
      (unfold generateTts; rw [if_neg hv, if_neg hPrev]; simp only [];
        rw [if_neg hQuota])

/-- Witness for C4's amended statement with a single rate-limited credential. -/
theorem single_attempt_hard_failure_witness :
    ("hello" : String) ≠ "" ∧ ("Zephyr" : String) ≠ "" ∧ ("s" : String) ≠ "" ∧
    ("u1" : String) ≠ "" ∧ ("u1" : String) ≠ "preview_user_id" ∧
    ([UpstreamOutcome.rateLimited] ≠ []) ∧
    (∀ o ∈ [UpstreamOutcome.rateLimited], o = .rateLimited) ∧
    ¬ ((getUserData [] "u1" 3 .free 0).1.dailyCharsUsed + 5 >
        (getUserData [] "u1" 3 .free 0).1.currentDailyLimit) ∧
    (∃ out, generateTtsPool ⟨[], []⟩ "hello" "Zephyr" "s" "u1" 5 3 .free 0
        [.rateLimited] "p1" 0 = some out ∧
      out.upstreamCalls = 1 ∧ out.result = .serverError) :=
  ⟨by decide, by decide, by decide, by decide, by decide, by decide, by decide,
   by decide,
   single_attempt_hard_failure _ "hello" "Zephyr" "s" "u1" 5 3 .free 0
     [.rateLimited] "p1" 0 (by decide) (by decide) (by decide) (by decide)
     (by decide) (by decide) (by decide) (by decide)⟩

/-- C8: a request by the designated preview identity leaves the entire server
state untouched (no usage record created or mutated, no artifact stored),
issues no persistence write, and on success reports dailyCharsUsed 0,
lifetime charsUsed 0 and the free-tier ceiling as currentDailyLimit. -/
theorem preview_bypass (st : ServerState) (text voice settings : String)
    (textLength : Int) (today : Nat) (psub : Plan) (pchars : Int)
    (upstream : UpstreamOutcome) (pid : String) (now : Nat)
    (hText : text ≠ "") (hVoice : voice ≠ "") (hSettings : settings ≠ "") :
    (generateTts st text voice settings "preview_user_id" textLength today psub
        pchars upstream pid now).state = st ∧
    (generateTts st text voice settings "preview_user_id" textLength today psub
        pchars upstream pid now).persistWrites = [] ∧
    (∀ pcm, upstream = .audio pcm →
      (generateTts st text voice settings "preview_user_id" textLength today psub
          pchars upstream pid now).result =
        .ok (encode pcm) 0 (PLAN_LIMITS .free) 0) := by
  unfold generateTts
  rw [if_neg (by simp [hText, hVoice, hSettings]), if_pos rfl]
  cases upstream with
  | audio pcm => exact ⟨rfl, rfl, by intro pcm' h; cases h; rfl⟩
  | noAudio => exact ⟨rfl, rfl, by intro pcm' h; cases h⟩
  | rateLimited => exact ⟨rfl, rfl, by intro pcm' h; cases h⟩
  | otherFailure => exact ⟨rfl, rfl, by intro pcm' h; cases h⟩

/-- Loading a record whose stored reset day is the current reference day only
syncs the subscription, the persistent chars-used value and the derived
ceiling; dailyCharsUsed is untouched. -/
theorem getUserData_same_day (users : List (String × UserData)) (u : String)
    (today : Nat) (psub : Plan) (pchars : Int) (ud0 : UserData)
    (hMem : getKey u users = some ud0) (hDay : ud0.dailyLimitResetDay = today) :
    getUserData users u today psub pchars =
      ({ ud0 with subscription := psub
                  charsUsed := pchars
                  currentDailyLimit := PLAN_LIMITS psub },
       setKey u { ud0 with subscription := psub
                           charsUsed := pchars
                           currentDailyLimit := PLAN_LIMITS psub } users) := by
  unfold getUserData
  rw [hMem]
  simp [hDay]

/-- C6 counterexample: principal u1 starts with dailyCharsUsed 10 and
persistent lifetime usage 10; a generation for the five-character text hello
declares only 3 characters (charging 3), and the subsequent deletion refunds
the stored text's length 5, leaving both counters at 8 instead of the
pre-creation 10. -/
theorem deletion_symmetry_counterexample :
    (getKey "u1" (deleteTts (generateTts ⟨[("u1",
        { dailyCharsUsed := 10, dailyLimitResetDay := 5, currentDailyLimit := 700
          subscription := .free, history := [], charsUsed := 10 })], []⟩ "hello"
        "Zephyr" "s" "u1" 3 5 .free 10 (.audio [1]) "p1" 0).state "p1" "u1" 5
        (some (.free, 13))).state.users).map UserData.dailyCharsUsed = some 8 ∧
    ¬ ((getKey "u1" (deleteTts (generateTts ⟨[("u1",
        { dailyCharsUsed := 10, dailyLimitResetDay := 5, currentDailyLimit := 700
          subscription := .free, history := [], charsUsed := 10 })], []⟩ "hello"
        "Zephyr" "s" "u1" 3 5 .free 10 (.audio [1]) "p1" 0).state "p1" "u1" 5
        (some (.free, 13))).state.users).map UserData.dailyCharsUsed = some 10) ∧
    (getKey "u1" (deleteTts (generateTts ⟨[("u1",
        { dailyCharsUsed := 10, dailyLimitResetDay := 5, currentDailyLimit := 700
          subscription := .free, history := [], charsUsed := 10 })], []⟩ "hello"
        "Zephyr" "s" "u1" 3 5 .free 10 (.audio [1]) "p1" 0).state "p1" "u1" 5
        (some (.free, 13))).state.users).map UserData.charsUsed = some 8 ∧
    ¬ ((getKey "u1" (deleteTts (generateTts ⟨[("u1",
        { dailyCharsUsed := 10, dailyLimitResetDay := 5, currentDailyLimit := 700
          subscription := .free, history := [], charsUsed := 10 })], []⟩ "hello"
        "Zephyr" "s" "u1" 3 5 .free 10 (.audio [1]) "p1" 0).state "p1" "u1" 5
        (some (.free, 13))).state.users).map UserData.charsUsed = some 10) := by
  decide

/-- C6 amended: the deletion refunds the artifact's stored text length rather
than the declared charge, so creation followed by deletion restores both
dailyCharsUsed and the lifetime counter to their pre-creation values, floored
at zero, exactly when the declared character length equals the text's
character count; here the generation is run with that declared length and
both counters return to their loaded pre-creation values while the stored
artifact is removed. -/
theorem deletion_reverses_creation
    (users : List (String × UserData)) (projects : List (String × Project))
    (text voice settings userId : String) (today : Nat) (psub : Plan)
    (pchars : Int) (pcm : List Nat) (pid : String) (now : Nat) (ud0 : UserData)
    (hText : text ≠ "") (hVoice : voice ≠ "") (hSettings : settings ≠ "")
    (hUser : userId ≠ "") (hPrev : userId ≠ "preview_user_id")
    (hMem : getKey userId users = some ud0)
    (hDay : ud0.dailyLimitResetDay = today)
    (hDaily : 0 ≤ ud0.dailyCharsUsed) (hChars : 0 ≤ pchars)
    (hQuota : ¬ (ud0.dailyCharsUsed + (text.length : Int) > PLAN_LIMITS psub)) :
    (getKey userId (deleteTts (generateTts ⟨users, projects⟩ text voice settings
        userId (text.length : Int) today psub pchars (.audio pcm) pid
        now).state pid userId today
        (some (psub, pchars + (text.length : Int)))).state.users).map
      UserData.dailyCharsUsed = some ud0.dailyCharsUsed ∧
    (getKey userId (deleteTts (generateTts ⟨users, projects⟩ text voice settings
        userId (text.length : Int) today psub pchars (.audio pcm) pid
        now).state pid userId today
        (some (psub, pchars + (text.length : Int)))).state.users).map
      UserData.charsUsed = some pchars ∧
    getKey pid (deleteTts (generateTts ⟨users, projects⟩ text voice settings
        userId (text.length : Int) today psub pchars (.audio pcm) pid
        now).state pid userId today
        (some (psub, pchars + (text.length : Int)))).state.ttsProjects =
      none := by
  have hv : ¬ (text = "" ∨ voice = "" ∨ settings = "" ∨ userId = "") := by
    simp [hText, hVoice, hSettings, hUser]
  have hLoad := getUserData_same_day users userId today psub pchars ud0 hMem hDay
  have hGen : (generateTts ⟨users, projects⟩ text voice settings userId
      (text.length : Int) today psub pchars (.audio pcm) pid now).state =
      { users := setKey userId
          { ud0 with subscription := psub
                     currentDailyLimit := PLAN_LIMITS psub
                     history := ud0.history ++ [pid]
                     dailyCharsUsed := ud0.dailyCharsUsed + (text.length : Int)
                     charsUsed := pchars + (text.length : Int) }
          (setKey userId
            { ud0 with subscription := psub
                       charsUsed := pchars
                       currentDailyLimit := PLAN_LIMITS psub } users)
        ttsProjects := setKey pid
          { userId := userId, text := text, voiceName := voice, createdAt := now
            settings := settings, audio := encode pcm } projects } := by
    unfold generateTts
    rw [if_neg hv, if_neg hPrev]
    dsimp only
    rw [hLoad]
    dsimp only
    rw [if_neg hQuota]
  rw [hGen]
  have hProj : getKey pid (setKey pid
      ({ userId := userId, text := text, voiceName := voice, createdAt := now
         settings := settings, audio := encode pcm } : Project) projects) =
      some { userId := userId, text := text, voiceName := voice, createdAt := now
             settings := settings, audio := encode pcm } :=
    getKey_setKey_self _ _ _
  have hMem2 : getKey userId (setKey userId
      ({ ud0 with subscription := psub
                  currentDailyLimit := PLAN_LIMITS psub
                  history := ud0.history ++ [pid]
                  dailyCharsUsed := ud0.dailyCharsUsed + (text.length : Int)
                  charsUsed := pchars + (text.length : Int) } : UserData)
      (setKey userId
        { ud0 with subscription := psub
                   charsUsed := pchars
                   currentDailyLimit := PLAN_LIMITS psub } users)) =
      some { ud0 with subscription := psub
                      currentDailyLimit := PLAN_LIMITS psub
                      history := ud0.history ++ [pid]
                      dailyCharsUsed := ud0.dailyCharsUsed + (text.length : Int)
                      charsUsed := pchars + (text.length : Int) } :=
    getKey_setKey_self _ _ _
  have hLoad2 := getUserData_same_day _ userId today psub
    (pchars + (text.length : Int)) _ hMem2 hDay
  unfold deleteTts
  rw [if_neg hUser]
  dsimp only
  rw [hProj]
  dsimp only
  rw [if_neg (show ¬ ({ userId := userId, text := text, voiceName := voice
                        createdAt := now, settings := settings
                        audio := encode pcm } :
        Project).userId ≠ userId by simp)]
  dsimp only
  rw [hLoad2]
  dsimp only
  refine ⟨?_, ?_, ?_⟩
  · rw [getKey_setKey_self]
    have e : ud0.dailyCharsUsed + (text.length : Int) - (text.length : Int) =
        ud0.dailyCharsUsed := by ring
    rw [Option.map_some']
    rw [show (({ userId := userId, text := text, voiceName := voice
                 createdAt := now, settings := settings
                 audio := encode pcm } :
        Project).text.length : Int) = (text.length : Int) from rfl, e,
      max_eq_right hDaily]
  · rw [getKey_setKey_self]
    have e : pchars + (text.length : Int) - (text.length : Int) = pchars := by
      ring
    rw [Option.map_some']
    rw [show (({ userId := userId, text := text, voiceName := voice
                 createdAt := now, settings := settings
                 audio := encode pcm } :
        Project).text.length : Int) = (text.length : Int) from rfl, e,
      max_eq_right hChars]
  · exact getKey_delKey_self _ _

/-- Witness for C6's amended statement: daily usage 10 and lifetime 10, a
five-character text declared as 5 characters, generated then deleted; both
counters return to 10 and the artifact is gone. -/
theorem deletion_reverses_creation_witness :
    ("hello" : String) ≠ "" ∧ ("Kore" : String) ≠ "" ∧ ("s" : String) ≠ "" ∧
    ("u1" : String) ≠ "" ∧ ("u1" : String) ≠ "preview_user_id" ∧
    getKey "u1" [("u1",
      { dailyCharsUsed := 10, dailyLimitResetDay := 5, currentDailyLimit := 700
        subscription := .free, history := [], charsUsed := 10 })] =
      some ({ dailyCharsUsed := 10, dailyLimitResetDay := 5
              currentDailyLimit := 700, subscription := .free, history := []
              charsUsed := 10 } : UserData) ∧
    (({ dailyCharsUsed := 10, dailyLimitResetDay := 5, currentDailyLimit := 700
        subscription := .free, history := [], charsUsed := 10 } :
          UserData).dailyLimitResetDay = 5) ∧
    ((0 : Int) ≤ 10) ∧ ((0 : Int) ≤ 10) ∧
    ¬ ((10 : Int) + (("hello" : String).length : Int) > PLAN_LIMITS .free) ∧
    ((getKey "u1" (deleteTts (generateTts ⟨[("u1",
        { dailyCharsUsed := 10, dailyLimitResetDay := 5, currentDailyLimit := 700
          subscription := .free, history := [], charsUsed := 10 })], []⟩ "hello"
        "Kore" "s" "u1" (("hello" : String).length : Int) 5 .free 10
        (.audio [1]) "p1" 0).state "p1" "u1" 5
        (some (.free, 10 + (("hello" : String).length : Int)))).state.users).map
      UserData.dailyCharsUsed = some 10 ∧
     (getKey "u1" (deleteTts (generateTts ⟨[("u1",
        { dailyCharsUsed := 10, dailyLimitResetDay := 5, currentDailyLimit := 700
          subscription := .free, history := [], charsUsed := 10 })], []⟩ "hello"
        "Kore" "s" "u1" (("hello" : String).length : Int) 5 .free 10
        (.audio [1]) "p1" 0).state "p1" "u1" 5
        (some (.free, 10 + (("hello" : String).length : Int)))).state.users).map
      UserData.charsUsed = some 10 ∧
     getKey "p1" (deleteTts (generateTts ⟨[("u1",
        { dailyCharsUsed := 10, dailyLimitResetDay := 5, currentDailyLimit := 700
          subscription := .free, history := [], charsUsed := 10 })], []⟩ "hello"
        "Kore" "s" "u1" (("hello" : String).length : Int) 5 .free 10
        (.audio [1]) "p1" 0).state "p1" "u1" 5
        (some (.free, 10 + (("hello" : String).length : Int)))).state.ttsProjects =
      none) :=
  ⟨by decide, by decide, by decide, by decide, by decide, by decide, by decide,
   by decide, by decide, by decide,
   deletion_reverses_creation
     [("u1", { dailyCharsUsed := 10, dailyLimitResetDay := 5
               currentDailyLimit := 700, subscription := .free, history := []
               charsUsed := 10 })] [] "hello" "Kore" "s" "u1" 5 .free 10 [1]
     "p1" 0
     { dailyCharsUsed := 10, dailyLimitResetDay := 5, currentDailyLimit := 700
       subscription := .free, history := [], charsUsed := 10 }
     (by decide) (by decide) (by decide) (by decide) (by decide) (by decide)
     (by decide) (by decide) (by decide) (by decide)⟩

/-- Witness for C8 with a successful upstream call returning two PCM bytes. -/
theorem preview_bypass_witness :
    ("hi" : String) ≠ "" ∧ ("Kore" : String) ≠ "" ∧ ("s" : String) ≠ "" ∧
    ((generateTts ⟨[], []⟩ "hi" "Kore" "s" "preview_user_id" 2 0 .free 0
        (.audio [3, 4]) "p1" 0).state = (⟨[], []⟩ : ServerState) ∧
     (generateTts ⟨[], []⟩ "hi" "Kore" "s" "preview_user_id" 2 0 .free 0
        (.audio [3, 4]) "p1" 0).persistWrites = [] ∧
     (∀ pcm, (UpstreamOutcome.audio [3, 4]) = .audio pcm →
       (generateTts ⟨[], []⟩ "hi" "Kore" "s" "preview_user_id" 2 0 .free 0
           (.audio [3, 4]) "p1" 0).result =
         .ok (encode pcm) 0 (PLAN_LIMITS .free) 0)) :=
  ⟨by decide, by decide, by decide,
   preview_bypass _ "hi" "Kore" "s" 2 0 .free 0 (.audio [3, 4]) "p1" 0
     (by decide) (by decide) (by decide)⟩

/-! ### Usage-counter operations across endpoints (for C9) -/

/-- The operations that touch a principal's usage counters. -/
inductive UsageOp where
  | commit (declaredLen : Int)
  | deleteArtifact (textLen : Nat)
  | rollover (day : Nat)
  | planChange (p : Plan) (day : Nat)
deriving DecidableEq, Repr

/-- Effect of each operation on the stored record, from the handler code:
generation commit of the caller-declared length (server.js lines 366-369),
artifact-deletion refund of the stored text length, floored at zero (lines
448-454), daily rollover (lines 106-111), and admin plan change, which
resets daily usage (lines 146-152). -/
def applyOp (ud : UserData) : UsageOp → UserData
  | .commit declaredLen =>
    { ud with dailyCharsUsed := ud.dailyCharsUsed + declaredLen
              charsUsed := ud.charsUsed + declaredLen }
  | .deleteArtifact textLen =>
    { ud with dailyCharsUsed := max 0 (ud.dailyCharsUsed - (textLen : Int))
              charsUsed := max 0 (ud.charsUsed - (textLen : Int)) }
  | .rollover day =>
    { ud with dailyCharsUsed := 0, dailyLimitResetDay := day }
  | .planChange p day =>
    { ud with subscription := p
              currentDailyLimit := PLAN_LIMITS p
              dailyCharsUsed := 0
              dailyLimitResetDay := day }

/-- Sequential application of usage operations. -/
def applyOps (ud : UserData) : List UsageOp → UserData
  | [] => ud
  | op :: ops => applyOps (applyOp ud op) ops

/-- C9 counterexample: the generate-tts handler validates textLength only
against undefined, so a request declaring -5 characters passes the quota
check (0 + -5 exceeds no ceiling) and the commit drives both stored counters
to -5, a negative value. -/
theorem usage_nonneg_counterexample :
    (getKey "u1" (generateTts ⟨[("u1",
        { dailyCharsUsed := 0, dailyLimitResetDay := 3, currentDailyLimit := 700
          subscription := .free, history := [], charsUsed := 0 })], []⟩ "hi"
        "Zephyr" "s" "u1" (-5) 3 .free 0 (.audio []) "p1" 0).state.users).map
      UserData.dailyCharsUsed = some (-5) ∧
    (getKey "u1" (generateTts ⟨[("u1",
        { dailyCharsUsed := 0, dailyLimitResetDay := 3, currentDailyLimit := 700
          subscription := .free, history := [], charsUsed := 0 })], []⟩ "hi"
        "Zephyr" "s" "u1" (-5) 3 .free 0 (.audio []) "p1" 0).state.users).map
      UserData.charsUsed = some (-5) ∧
    ¬ ((0 : Int) ≤ -5) := by
  decide

/-- C9 amended: starting from non-negative counters, every sequence of
generation commits, artifact deletions, rollovers and plan changes keeps
dailyCharsUsed and the lifetime counter non-negative, provided every commit
declares a non-negative character length; the code never validates that
proviso, and the counterexample shows a negative declared length breaking
it. -/
theorem usage_nonneg_invariant (ops : List UsageOp) :
    ∀ ud : UserData, 0 ≤ ud.dailyCharsUsed → 0 ≤ ud.charsUsed →
      (∀ L, UsageOp.commit L ∈ ops → 0 ≤ L) →
      0 ≤ (applyOps ud ops).dailyCharsUsed ∧
        0 ≤ (applyOps ud ops).charsUsed := by
  induction ops with
  | nil => exact fun ud h0 h1 _ => ⟨h0, h1⟩
  | cons op ops ih =>
    intro ud h0 h1 hOps
    have hOps' : ∀ L, UsageOp.commit L ∈ ops → 0 ≤ L := fun L hL =>
      hOps L (List.mem_cons_of_mem _ hL)
    cases op with
    | commit L =>
      have hL : 0 ≤ L := hOps L (List.mem_cons_self _ _)
      exact ih (applyOp ud (.commit L)) (add_nonneg h0 hL) (add_nonneg h1 hL)
        hOps'
    | deleteArtifact n =>
      exact ih (applyOp ud (.deleteArtifact n)) (le_max_left _ _)
        (le_max_left _ _) hOps'
    | rollover day =>
      exact ih (applyOp ud (.rollover day)) le_rfl h1 hOps'
    | planChange p day =>
      exact ih (applyOp ud (.planChange p day)) le_rfl h1 hOps'

/-- Witness for C9's amended statement over a mixed operation sequence. -/
theorem usage_nonneg_invariant_witness :
    (0 : Int) ≤ ({ dailyCharsUsed := 0, dailyLimitResetDay := 0
                   currentDailyLimit := 700, subscription := .free
                   history := [], charsUsed := 0 } : UserData).dailyCharsUsed ∧
    (0 : Int) ≤ ({ dailyCharsUsed := 0, dailyLimitResetDay := 0
                   currentDailyLimit := 700, subscription := .free
                   history := [], charsUsed := 0 } : UserData).charsUsed ∧
    (∀ L, UsageOp.commit L ∈
        [UsageOp.commit 5, UsageOp.deleteArtifact 3, UsageOp.rollover 1,
         UsageOp.planChange .vip 2, UsageOp.deleteArtifact 100] → 0 ≤ L) ∧
    (0 ≤ (applyOps
        { dailyCharsUsed := 0, dailyLimitResetDay := 0, currentDailyLimit := 700
          subscription := .free, history := [], charsUsed := 0 }
        [UsageOp.commit 5, UsageOp.deleteArtifact 3, UsageOp.rollover 1,
         UsageOp.planChange .vip 2,
         UsageOp.deleteArtifact 100]).dailyCharsUsed ∧
     0 ≤ (applyOps
        { dailyCharsUsed := 0, dailyLimitResetDay := 0, currentDailyLimit := 700
          subscription := .free, history := [], charsUsed := 0 }
        [UsageOp.commit 5, UsageOp.deleteArtifact 3, UsageOp.rollover 1,
         UsageOp.planChange .vip 2,
         UsageOp.deleteArtifact 100]).charsUsed) :=
  ⟨by decide, by decide,
   (by intro L hL; simp at hL; omega),
   usage_nonneg_invariant
     [UsageOp.commit 5, UsageOp.deleteArtifact 3, UsageOp.rollover 1,
      UsageOp.planChange .vip 2, UsageOp.deleteArtifact 100]
     { dailyCharsUsed := 0, dailyLimitResetDay := 0, currentDailyLimit := 700
       subscription := .free, history := [], charsUsed := 0 }
     (by decide) (by decide) (by intro L hL; simp at hL; omega)⟩

/-- C10: with a present principal identity and a successful profile read, a
deletion request succeeds exactly when an artifact with the given id exists
and its recorded owner equals the caller; a missing artifact and a non-owner
caller both receive the same single not-found result, and in that case no
state changes and no persistence write happens. -/
theorem delete_auth_iff (st : ServerState) (projectId userId : String)
    (today : Nat) (psub : Plan) (pchars : Int) (hUser : userId ≠ "") :
    ((∃ d c, (deleteTts st projectId userId today (some (psub, pchars))).result =
        .ok d c) ↔
      (∃ proj, getKey projectId st.ttsProjects = some proj ∧
        proj.userId = userId)) ∧
    ((∀ proj, getKey projectId st.ttsProjects = some proj →
        proj.userId ≠ userId) →
      (deleteTts st projectId userId today (some (psub, pchars))).result =
        .notFound ∧
      (deleteTts st projectId userId today (some (psub, pchars))).state = st ∧
      (deleteTts st projectId userId today
        (some (psub, pchars))).persistWrites = []) := by
  unfold deleteTts
  rw [if_neg hUser]
  rcases hP : getKey projectId st.ttsProjects with _ | proj
  · dsimp only
    refine ⟨⟨?_, ?_⟩, ?_⟩
    · rintro ⟨d, c, h⟩
      cases h
    · rintro ⟨proj, hproj, _⟩
      cases hproj
    · intro _
      exact ⟨rfl, rfl, rfl⟩
  · dsimp only
    by_cases hOwn : proj.userId = userId
    · rw [if_neg (show ¬ (proj.userId ≠ userId) from fun h => h hOwn)]
      dsimp only
      refine ⟨⟨?_, ?_⟩, ?_⟩
      · intro _
        exact ⟨proj, rfl, hOwn⟩
      · intro _
        exact ⟨_, _, rfl⟩
      · intro hAll
        exact absurd hOwn (hAll proj rfl)
    · rw [if_pos hOwn]
      dsimp only
      refine ⟨⟨?_, ?_⟩, ?_⟩
      · rintro ⟨d, c, h⟩
        cases h
      · rintro ⟨proj', hproj', hOwn'⟩
        cases hproj'
        exact absurd hOwn' hOwn
      · intro _
        exact ⟨rfl, rfl, rfl⟩

/-- Witness for C10: the artifact p1 exists but belongs to u2, so the u1
caller gets the single not-found result and nothing changes. -/
theorem delete_auth_iff_witness :
    ("u1" : String) ≠ "" ∧
    (((∃ d c, (deleteTts ⟨[], [("p1",
        { userId := "u2", text := "t", voiceName := "v", createdAt := 0
          settings := "s", audio := [] })]⟩ "p1" "u1" 0
        (some (.free, 0))).result = .ok d c) ↔
      (∃ proj, getKey "p1" ((⟨[], [("p1",
        { userId := "u2", text := "t", voiceName := "v", createdAt := 0
          settings := "s", audio := [] })]⟩ : ServerState)).ttsProjects =
          some proj ∧ proj.userId = "u1")) ∧
     ((∀ proj, getKey "p1" ((⟨[], [("p1",
        { userId := "u2", text := "t", voiceName := "v", createdAt := 0
          settings := "s", audio := [] })]⟩ : ServerState)).ttsProjects =
          some proj → proj.userId ≠ "u1") →
      (deleteTts ⟨[], [("p1",
        { userId := "u2", text := "t", voiceName := "v", createdAt := 0
          settings := "s", audio := [] })]⟩ "p1" "u1" 0
        (some (.free, 0))).result = .notFound ∧
      (deleteTts ⟨[], [("p1",
        { userId := "u2", text := "t", voiceName := "v", createdAt := 0
          settings := "s", audio := [] })]⟩ "p1" "u1" 0
        (some (.free, 0))).state = (⟨[], [("p1",
        { userId := "u2", text := "t", voiceName := "v", createdAt := 0
          settings := "s", audio := [] })]⟩ : ServerState) ∧
      (deleteTts ⟨[], [("p1",
        { userId := "u2", text := "t", voiceName := "v", createdAt := 0
          settings := "s", audio := [] })]⟩ "p1" "u1" 0
        (some (.free, 0))).persistWrites = [])) :=
  ⟨by decide,
   delete_auth_iff ⟨[], [("p1",
     { userId := "u2", text := "t", voiceName := "v", createdAt := 0
       settings := "s", audio := [] })]⟩ "p1" "u1" 0 .free 0 (by decide)⟩

end RoxTts
